import Mathlib

/-!
Verification of the asynchronous query logger of this repository
(dbms/include/DB/Interpreters/QueryLog.h) and of the scalar function
h3HexAreaM2 (dbms/src/Functions/h3HexAreaM2.cpp), as a shallow embedding.

Machine integers are modelled as Nat (no arithmetic in the fragment can
overflow in a way any claim depends on); times are absolute clock readings
in nanoseconds, as returned by the Stopwatch used in QueryLog.h.
-/

namespace QueryLogSpec

/-- The enum QueryLogElement::Type (QueryLog.h lines 32-37). -/
inductive ElementType
  | SHUTDOWN
  | QUERY_START
  | QUERY_FINISH
deriving DecidableEq, Repr

/-- Numeric values of the enum QueryLogElement::Type: SHUTDOWN = 0,
QUERY_START = 1, QUERY_FINISH = 2. -/
def typeValue : ElementType → Nat
  | .SHUTDOWN => 0
  | .QUERY_START => 1
  | .QUERY_FINISH => 2

/-- The enum QueryLogElement::Interface (QueryLog.h lines 39-44). -/
inductive InterfaceType
  | TCP
  | HTTP
  | OLAP_HTTP
deriving DecidableEq, Repr

/-- The enum QueryLogElement::HTTPMethod (QueryLog.h lines 46-51). -/
inductive HTTPMethod
  | UNKNOWN
  | GET
  | POST
deriving DecidableEq, Repr

/-- The struct QueryLogElement (QueryLog.h lines 30-74): one loggable event.
Timestamps and counters are Nat; the IP address is kept as a string. -/
structure QueryLogElement where
  type : ElementType
  event_time : Nat
  query_start_time : Nat
  query_duration_ms : Nat
  read_rows : Nat
  read_bytes : Nat
  result_rows : Nat
  result_bytes : Nat
  query : String
  interface : InterfaceType
  http_method : HTTPMethod
  ip_address : String
  user : String
  query_id : String
deriving DecidableEq, Repr

/-- The names of the fourteen fields of struct QueryLogElement, in
declaration order (QueryLog.h lines 53-73). -/
def queryLogElementFieldNames : List String :=
  ["type", "event_time", "query_start_time", "query_duration_ms",
   "read_rows", "read_bytes", "result_rows", "result_bytes", "query",
   "interface", "http_method", "ip_address", "user", "query_id"]

/-- Effect on the element of the condition at QueryLog.h line 174,
which is an assignment, not a comparison: element.type is set to
QueryLogElement::SHUTDOWN. -/
def assignedElement (e : QueryLogElement) : QueryLogElement :=
  { e with type := .SHUTDOWN }

/-- Outcome of handling a popped element in the loop body
(QueryLog.h lines 172-181). -/
inductive HandleOutcome
  | flushAndStop
  | continueWith (newData : List QueryLogElement) (pushed : QueryLogElement)
deriving DecidableEq, Repr

/-- QueryLog.h lines 172-181. The source condition is
`if (element.type = QueryLogElement::SHUTDOWN)`: an assignment whose value
is the assigned enum value (SHUTDOWN, numerically 0) converted to bool,
so the branch is taken exactly when that value is nonzero; the else branch
does data.push_back(element) on the now-mutated element. -/
def handlePoppedElement (data : List QueryLogElement) (element : QueryLogElement) :
    HandleOutcome :=
  let assigned := assignedElement element
  if typeValue assigned.type ≠ 0 then .flushAndStop
  else .continueWith (data ++ [assigned]) assigned

/-- A sample QUERY_FINISH record. -/
def exampleFinish : QueryLogElement :=
  { type := .QUERY_FINISH
    event_time := 100
    query_start_time := 99
    query_duration_ms := 1000
    read_rows := 10
    read_bytes := 800
    result_rows := 1
    result_bytes := 8
    query := "SELECT 1"
    interface := .TCP
    http_method := .UNKNOWN
    ip_address := "127.0.0.1"
    user := "default"
    query_id := "q1" }

/-- The sentinel record pushed by the destructor (QueryLog.h lines 102-110):
a default element whose type is set to SHUTDOWN. -/
def shutdownSentinel : QueryLogElement :=
  { type := .SHUTDOWN
    event_time := 0
    query_start_time := 0
    query_duration_ms := 0
    read_rows := 0
    read_bytes := 0
    result_rows := 0
    result_bytes := 0
    query := ""
    interface := .TCP
    http_method := .UNKNOWN
    ip_address := ""
    user := ""
    query_id := "" }

/-- The constant DBMS_QUERY_LOG_QUEUE_SIZE (QueryLog.h line 77). -/
def DBMS_QUERY_LOG_QUEUE_SIZE : Nat := 1024

/-- A record of one call to QueryLog::flush: the batch present in `data`
at the call, the Stopwatch reading at the surrounding deadline check, and
whether the body of flush's try block raised. -/
structure FlushCall where
  batch : List QueryLogElement
  timeNs : Nat
  threw : Bool
deriving DecidableEq, Repr

/-- A record of one insert_rows call against the Table Sink (spec §4.3):
the batch of rows passed and whether the call succeeded. -/
structure InsertCall where
  batch : List QueryLogElement
  ok : Bool
deriving DecidableEq, Repr

/-- State of the Log Writer thread together with the channel it drains.
`data` is the Batch Accumulator (the member std::vector data), `queueItems`
the content of the bounded queue, `first`/`lastRestartNs` the Stopwatch
time_after_last_write (lastRestartNs is the absolute nanosecond reading at
its last restart), `stopped` whether the while loop has exited via break.
`flushCalls`, `insertCalls`, `appended` and `errorsLogged` are histories
recorded for specification purposes: every flush() call, every insert_rows
call, every element ever pushed into `data`, and the number of
tryLogCurrentException calls. -/
structure WriterState where
  first : Bool
  data : List QueryLogElement
  queueItems : List QueryLogElement
  lastRestartNs : Nat
  stopped : Bool
  flushCalls : List FlushCall
  insertCalls : List InsertCall
  appended : List QueryLogElement
  errorsLogged : Nat
deriving DecidableEq, Repr

/-- Nondeterministic inputs of one iteration of the while loop in
QueryLog::threadFunction: the absolute clock readings behind the two
`time_after_last_write.elapsed()` calls (line 167 and line 183), whether a
tryPop that waits finds an element, whether the popping/accumulating part
of the try block raises, whether flush's internal try block raises, and —
for the spec-modelled flush — whether the insert_rows call fails. -/
structure IterInput where
  t1Ns : Nat
  t2Ns : Nat
  tryPopGets : Bool
  throwsBody : Bool
  flushThrows : Bool
  insertFails : Bool
deriving DecidableEq, Repr

/-- The expression `time_after_last_write.elapsed() / 1000000`
(QueryLog.h lines 167 and 183): elapsed nanoseconds to milliseconds. -/
def millisecondsElapsed (lastRestartNs tNs : Nat) : Nat :=
  (tNs - lastRestartNs) / 1000000

/-- The wait imposed on the queue when the accumulator is non-empty
(QueryLog.h lines 165-170): while the elapsed milliseconds are below
flush_interval_milliseconds, tryPop waits up to the remaining budget
flush_interval_milliseconds - milliseconds_elapsed; once the elapsed time
reaches the interval no wait happens at all. -/
def tryPopBudget (interval elapsedMs : Nat) : Nat :=
  if elapsedMs < interval then interval - elapsedMs else 0

/-- QueryLog::flush (QueryLog.h lines 227-241): the try block builds the
block; the actual write into the table is left as a TODO comment, so no
insert_rows call happens; an exception inside the try block is caught and
logged; data.clear() runs unconditionally after the try/catch. -/
def flushFn (tNs : Nat) (throws : Bool) (s : WriterState) : WriterState :=
  { s with
    errorsLogged := if throws then s.errorsLogged + 1 else s.errorsLogged
    flushCalls := s.flushCalls ++ [⟨s.data, tNs, throws⟩]
    data := [] }

/-- Modelled from the spec: QueryLog::flush with the table write that the
source leaves as a TODO comment ("Формирование блока и запись"). Per spec
§4.3/§4.4 and §8, the accumulated batch is passed to one insert_rows call
of the Table Sink; a failing call is caught and logged and the batch is
not retried; data.clear() remains unconditional as in the source. -/
def flushModelled (tNs : Nat) (insertFails : Bool) (s : WriterState) : WriterState :=
  { s with
    insertCalls := s.insertCalls ++ [⟨s.data, !insertFails⟩]
    errorsLogged := if insertFails then s.errorsLogged + 1 else s.errorsLogged
    flushCalls := s.flushCalls ++ [⟨s.data, tNs, insertFails⟩]
    data := [] }

/-- The flush implementation of the source: flush is invoked with the
clock reading of the surrounding iteration and its try block raises iff
the iteration input says so. -/
def flushImplSrc (inp : IterInput) (s : WriterState) : WriterState :=
  flushFn inp.t2Ns inp.flushThrows s

/-- The spec-modelled flush implementation (see flushModelled). -/
def flushImplModelled (inp : IterInput) (s : WriterState) : WriterState :=
  flushModelled inp.t2Ns inp.insertFails s

/-- QueryLog.h lines 183-189: the deadline check at the end of the loop
body; when at least flush_interval_milliseconds elapsed since the last
restart, flush is called and the Stopwatch restarted. -/
def deadlineCheck (flushImpl : IterInput → WriterState → WriterState)
    (interval : Nat) (inp : IterInput) (s : WriterState) : WriterState :=
  if interval ≤ millisecondsElapsed s.lastRestartNs inp.t2Ns then
    { flushImpl inp s with lastRestartNs := inp.t2Ns }
  else s

/-- Handling of a popped element (QueryLog.h lines 172-181) followed by
the deadline check: the flushAndStop branch performs a flush and exits the
loop (break); the other branch stores the pushed element and goes on. -/
def handleAndCheck (flushImpl : IterInput → WriterState → WriterState)
    (interval : Nat) (inp : IterInput) (s : WriterState)
    (element : QueryLogElement) : WriterState :=
  match handlePoppedElement s.data element with
  | .flushAndStop => { flushImpl inp s with stopped := true }
  | .continueWith newData pushed =>
      deadlineCheck flushImpl interval inp
        { s with data := newData, appended := s.appended ++ [pushed] }

/-- The first-iteration branch (QueryLog.h lines 151-155): on the first
pass the Stopwatch is restarted. -/
def consumeFirst (s : WriterState) (inp : IterInput) : WriterState :=
  if s.first then { s with first := false, lastRestartNs := inp.t1Ns } else s

/-- The try block of one iteration of QueryLog::threadFunction
(QueryLog.h lines 149-190). With an empty accumulator the blocking
queue.pop() is used: if the queue is also empty the thread stays blocked
and nothing observable happens (the iteration returns the state
unchanged). With a non-empty accumulator, tryPop with the remaining time
budget is attempted only while the elapsed time is below the interval;
whether it yields an element is an input. A raising body yields .error. -/
def iterBodyWith (flushImpl : IterInput → WriterState → WriterState)
    (interval : Nat) (s : WriterState) (inp : IterInput) :
    Except Unit WriterState :=
  if inp.throwsBody then .error () else
  if s.data.isEmpty then
    match s.queueItems with
    | [] => .ok s
    | e :: rest =>
        .ok (handleAndCheck flushImpl interval inp { s with queueItems := rest } e)
  else
    if millisecondsElapsed s.lastRestartNs inp.t1Ns < interval ∧ inp.tryPopGets then
      match s.queueItems with
      | [] => .ok (deadlineCheck flushImpl interval inp s)
      | e :: rest =>
          .ok (handleAndCheck flushImpl interval inp { s with queueItems := rest } e)
    else .ok (deadlineCheck flushImpl interval inp s)

/-- One iteration of the while loop of QueryLog::threadFunction: after the
break the loop body runs no more; an exception escaping the try block is
caught at the loop boundary (QueryLog.h lines 191-196), the accumulated
records are dropped and the error is logged, then the loop continues. -/
def iterStepWith (flushImpl : IterInput → WriterState → WriterState)
    (interval : Nat) (s : WriterState) (inp : IterInput) : WriterState :=
  if s.stopped then s else
  match iterBodyWith flushImpl interval (consumeFirst s inp) inp with
  | .ok s2 => s2
  | .error _ =>
      { consumeFirst s inp with
        data := []
        errorsLogged := (consumeFirst s inp).errorsLogged + 1 }

/-- An event of a run: a producer's QueryLog::add (which pushes onto the
bounded queue, QueryLog.h lines 115-119) or one iteration of the writer
loop. -/
inductive LogEvent
  | add (e : QueryLogElement)
  | iter (inp : IterInput)
deriving DecidableEq, Repr

/-- Applying one event. A completed add appends to the queue; an add
facing a full queue blocks the producer, so no completed push is recorded
(the push completes as a later event once space frees). -/
def applyEventWith (flushImpl : IterInput → WriterState → WriterState)
    (interval : Nat) (s : WriterState) : LogEvent → WriterState
  | .add e =>
      if s.queueItems.length < DBMS_QUERY_LOG_QUEUE_SIZE
      then { s with queueItems := s.queueItems ++ [e] } else s
  | .iter inp => iterStepWith flushImpl interval s inp

/-- The state right after QueryLog's constructor: empty accumulator and
queue, thread started, first iteration still pending. -/
def initState (startNs : Nat) : WriterState :=
  { first := true
    data := []
    queueItems := []
    lastRestartNs := startNs
    stopped := false
    flushCalls := []
    insertCalls := []
    appended := []
    errorsLogged := 0 }

/-- A run of the source code: QueryLog.h as written (flush performs no
table write). -/
def runWriter (interval startNs : Nat) (evs : List LogEvent) : WriterState :=
  evs.foldl (applyEventWith flushImplSrc interval) (initState startNs)

/-- A run with the spec-modelled flush (see flushModelled). -/
def runWriterModelled (interval startNs : Nat) (evs : List LogEvent) : WriterState :=
  evs.foldl (applyEventWith flushImplModelled interval) (initState startNs)

/-- Shape facts shared by the two flush implementations: flush touches
only the accumulator, the error log and the flush/insert histories, it
empties the accumulator, and it records one flush call carrying the
current batch and the surrounding clock reading. -/
def FlushImplShape (flushImpl : IterInput → WriterState → WriterState) : Prop :=
  ∀ (inp : IterInput) (s : WriterState),
    (flushImpl inp s).stopped = s.stopped
    ∧ (flushImpl inp s).first = s.first
    ∧ (flushImpl inp s).queueItems = s.queueItems
    ∧ (flushImpl inp s).lastRestartNs = s.lastRestartNs
    ∧ (flushImpl inp s).appended = s.appended
    ∧ (flushImpl inp s).data = []
    ∧ ∃ c : FlushCall, c.timeNs = inp.t2Ns
        ∧ (flushImpl inp s).flushCalls = s.flushCalls ++ [c]

/-- Spacing of the recorded flush calls: each is at least
interval milliseconds (in nanosecond readings) after the previous one. -/
def flushTimesSpaced (interval : Nat) (l : List FlushCall) : Prop :=
  List.Chain' (fun f g => f.timeNs + interval * 1000000 ≤ g.timeNs) l

/-- The timing invariant of the writer loop: recorded flushes are spaced,
the Stopwatch base equals the last flush's clock reading once a flush
happened, and before the first iteration no flush has happened. -/
def writerTimingInv (interval : Nat) (s : WriterState) : Prop :=
  flushTimesSpaced interval s.flushCalls
  ∧ (∀ f, s.flushCalls.getLast? = some f → f.timeNs = s.lastRestartNs)
  ∧ (s.first = true → s.flushCalls = [])

/-- The conservation invariant of the spec-modelled run: the batches
passed to insert_rows so far, in order, followed by the pending
accumulator, form a subsequence of all elements ever pushed into the
accumulator (elements disappear only at a loop-boundary catch). -/
def insertedInv (s : WriterState) : Prop :=
  ((s.insertCalls.map InsertCall.batch).flatten ++ s.data).Sublist s.appended

/-- A second sample QUERY_FINISH record, distinct from exampleFinish even
after the type overwrite at line 174. -/
def exampleFinish2 : QueryLogElement :=
  { exampleFinish with query := "SELECT 2", query_id := "q2" }

/-- Event list of a sample run: a producer submits one record, the writer
pops it, and the flush deadline expires 100 ms after thread start. -/
def demoEvents : List LogEvent :=
  [.add exampleFinish,
   .iter { t1Ns := 0, t2Ns := 1000, tryPopGets := false,
           throwsBody := false, flushThrows := false, insertFails := false },
   .iter { t1Ns := 50000000, t2Ns := 100000000, tryPopGets := false,
           throwsBody := false, flushThrows := false, insertFails := false }]

/-- Event list of a sample run with two deadline flushes: one record per
flush window; in the spec-modelled run the first insert_rows call fails
and the second succeeds. -/
def demoEventsTwoFlushes : List LogEvent :=
  [.add exampleFinish,
   .iter { t1Ns := 0, t2Ns := 1000, tryPopGets := false,
           throwsBody := false, flushThrows := false, insertFails := false },
   .iter { t1Ns := 50000000, t2Ns := 100000000, tryPopGets := false,
           throwsBody := false, flushThrows := false, insertFails := true },
   .add exampleFinish2,
   .iter { t1Ns := 100000001, t2Ns := 150000000, tryPopGets := false,
           throwsBody := false, flushThrows := false, insertFails := false },
   .iter { t1Ns := 150000000, t2Ns := 200000000, tryPopGets := false,
           throwsBody := false, flushThrows := false, insertFails := false }]

/-- Event list of a destructor run: QueryLog::~QueryLog pushes the
SHUTDOWN sentinel and the writer loop keeps iterating. -/
def destructorEvents : List LogEvent :=
  [.add shutdownSentinel,
   .iter { t1Ns := 0, t2Ns := 1000, tryPopGets := false,
           throwsBody := false, flushThrows := false, insertFails := false },
   .iter { t1Ns := 2000, t2Ns := 3000, tryPopGets := false,
           throwsBody := false, flushThrows := false, insertFails := false }]

/-- An operation offered by the bounded queue: a producer push or a
consumer pop. -/
inductive QueueOp
  | push (e : QueryLogElement)
  | pop
deriving DecidableEq, Repr

/-- State of the bounded queue together with the history of completed
pushes and completed pops. -/
structure QueueState where
  capacity : Nat
  items : List QueryLogElement
  pushed : List QueryLogElement
  popped : List QueryLogElement
deriving DecidableEq, Repr

/-- Modelled from the spec: ConcurrentBoundedQueue (the header
DB/Common/ConcurrentBoundedQueue.h is not part of the fragment). Per spec
§4.1 the capacity is fixed at construction, push inserts unconditionally
and blocks the producer while the queue is at capacity, pop blocks while
it is empty, and delivery is FIFO; the primitive cannot fail. A blocked
operation makes no step (it completes as a later event once unblocked). -/
def queueStep (st : QueueState) : QueueOp → QueueState
  | .push e =>
      if st.items.length < st.capacity
      then { st with items := st.items ++ [e], pushed := st.pushed ++ [e] }
      else st
  | .pop =>
      match st.items with
      | [] => st
      | e :: rest => { st with items := rest, popped := st.popped ++ [e] }

/-- The queue member of QueryLog (QueryLog.h lines 128-129), constructed
with capacity DBMS_QUERY_LOG_QUEUE_SIZE. -/
def initQueue : QueueState :=
  { capacity := DBMS_QUERY_LOG_QUEUE_SIZE
    items := []
    pushed := []
    popped := [] }

/-- A run of queue operations starting from QueryLog's freshly
constructed queue. -/
def runQueue (ops : List QueueOp) : QueueState :=
  ops.foldl queueStep initQueue

/-- QueryLog::add (QueryLog.h lines 115-119): it does nothing but push
the element onto the queue. -/
def queryLogAdd (st : QueueState) (e : QueryLogElement) : QueueState :=
  queueStep st (.push e)

/-- The kind of a freshly allocated column in createBlock
(QueryLog.h lines 200-207): new ColumnUInt8 or new ColumnUInt32, both
empty (no rows). -/
inductive ColumnKind
  | ColumnUInt8
  | ColumnUInt32
deriving DecidableEq, Repr

/-- The data type attached to a column in createBlock. -/
inductive DataTypeKind
  | DataTypeUInt8
  | DataTypeDateTime
deriving DecidableEq, Repr

/-- One column of a Block: column object, data type, name. -/
structure ColumnWithTypeAndName where
  column : ColumnKind
  dataType : DataTypeKind
  name : String
deriving DecidableEq, Repr

/-- QueryLog::createBlock (QueryLog.h lines 200-225). It is a member
function of the object whose accumulator is `data`; the returned block is
a literal of three fresh empty columns and reads nothing from `data`
(the remaining eleven fields of QueryLogElement appear only inside a
block comment in the source). -/
def createBlock (data : List QueryLogElement) : List ColumnWithTypeAndName :=
  [{ column := .ColumnUInt8, dataType := .DataTypeUInt8, name := "type" },
   { column := .ColumnUInt32, dataType := .DataTypeDateTime, name := "event_time" },
   { column := .ColumnUInt32, dataType := .DataTypeDateTime, name := "query_start_time" }]

end QueryLogSpec

namespace H3Spec

/-- The constant MAX_H3_RES from the H3 library's constants.h (an
external collaborator of the fragment): the maximum H3 resolution, 15. -/
def MAX_H3_RES : Nat := 15

/-- The error thrown by FunctionH3HexAreaM2::executeImpl
(h3HexAreaM2.cpp lines 63-65): ARGUMENT_OUT_OF_BOUND, carrying the
offending resolution. -/
inductive H3Error
  | ARGUMENT_OUT_OF_BOUND (resolution : Nat)
deriving DecidableEq, Repr

/-- The row loop of FunctionH3HexAreaM2::executeImpl
(h3HexAreaM2.cpp lines 52-73): for each row in order, the resolution is
read; if it exceeds MAX_H3_RES an ARGUMENT_OUT_OF_BOUND exception is
thrown (aborting the whole call), otherwise hexAreaM2(resolution) is
stored as that row's result. The external lookup hexAreaM2 (its Float64
values are not modelled) is a parameter. -/
def executeImpl {α : Type} (hexAreaM2 : Nat → α) :
    List Nat → Except H3Error (List α)
  | [] => .ok []
  | r :: rest =>
      if MAX_H3_RES < r then .error (.ARGUMENT_OUT_OF_BOUND r)
      else
        match executeImpl hexAreaM2 rest with
        | .ok vs => .ok (hexAreaM2 r :: vs)
        | .error e => .error e

end H3Spec

/-! Theorems. -/

namespace QueryLogSpec

/-- Helper: the value of the condition at QueryLog.h line 174 is the
numeric value of SHUTDOWN, which is 0, so the branch is never taken: every
popped element — the sentinel included — has its type overwritten and is
appended to the accumulator. -/
theorem handle_never_stops (d : List QueryLogElement) (e : QueryLogElement) :
    handlePoppedElement d e
      = .continueWith (d ++ [assignedElement e]) (assignedElement e) := by
  unfold handlePoppedElement assignedElement
  simp [typeValue]

/-- Helper: normal form of handleAndCheck, using handle_never_stops. -/
theorem handleAndCheck_eq (flushImpl : IterInput → WriterState → WriterState)
    (interval : Nat) (inp : IterInput) (s : WriterState) (e : QueryLogElement) :
    handleAndCheck flushImpl interval inp s e
      = deadlineCheck flushImpl interval inp
          { s with data := s.data ++ [assignedElement e]
                   appended := s.appended ++ [assignedElement e] } := by
  unfold handleAndCheck
  rw [handle_never_stops]

/-- C1: the source makes the Log Writer treat no popped Record as the
shutdown signal. The condition at QueryLog.h line 174 is an assignment
whose value is SHUTDOWN = 0, i.e. false, so the flush-and-stop branch is
never taken: every popped Record, the ShutdownSentinel included, is
appended to the Batch Accumulator (with its kind overwritten to SHUTDOWN)
and the loop continues — refuting the claimed equivalence at the sentinel
itself. -/
theorem sentinel_is_appended_not_stopping :
    (∀ (d : List QueryLogElement) (e : QueryLogElement),
        handlePoppedElement d e ≠ .flushAndStop)
    ∧ handlePoppedElement [] shutdownSentinel
        = .continueWith [shutdownSentinel] shutdownSentinel := by
  constructor
  · intro d e h
    rw [handle_never_stops] at h
    exact HandleOutcome.noConfusion h
  · decide

/-- Helper: flushFn has the common flush shape. -/
theorem flushImplSrc_shape : FlushImplShape flushImplSrc := by
  intro inp s
  exact ⟨rfl, rfl, rfl, rfl, rfl, rfl,
    ⟨s.data, inp.t2Ns, inp.flushThrows⟩, rfl, rfl⟩

/-- Helper: flushModelled has the common flush shape. -/
theorem flushImplModelled_shape : FlushImplShape flushImplModelled := by
  intro inp s
  exact ⟨rfl, rfl, rfl, rfl, rfl, rfl,
    ⟨s.data, inp.t2Ns, inp.insertFails⟩, rfl, rfl⟩

/-- Helper: consumeFirst changes only the first flag and the Stopwatch
base. -/
theorem consumeFirst_fields (s : WriterState) (inp : IterInput) :
    (consumeFirst s inp).data = s.data
    ∧ (consumeFirst s inp).queueItems = s.queueItems
    ∧ (consumeFirst s inp).stopped = s.stopped
    ∧ (consumeFirst s inp).appended = s.appended
    ∧ (consumeFirst s inp).insertCalls = s.insertCalls
    ∧ (consumeFirst s inp).flushCalls = s.flushCalls
    ∧ (consumeFirst s inp).errorsLogged = s.errorsLogged := by
  unfold consumeFirst
  split <;> exact ⟨rfl, rfl, rfl, rfl, rfl, rfl, rfl⟩

/-- Helper: fields of the state that deadlineCheck leaves unchanged,
for any flush implementation of the common shape. -/
theorem deadlineCheck_fields (flushImpl : IterInput → WriterState → WriterState)
    (hsh : FlushImplShape flushImpl) (interval : Nat) (inp : IterInput)
    (s : WriterState) :
    (deadlineCheck flushImpl interval inp s).stopped = s.stopped
    ∧ (deadlineCheck flushImpl interval inp s).first = s.first
    ∧ (deadlineCheck flushImpl interval inp s).queueItems = s.queueItems
    ∧ (deadlineCheck flushImpl interval inp s).appended = s.appended := by
  unfold deadlineCheck
  split
  · exact ⟨(hsh inp s).1, (hsh inp s).2.1, (hsh inp s).2.2.1,
      (hsh inp s).2.2.2.2.1⟩
  · exact ⟨rfl, rfl, rfl, rfl⟩

/-- Helper: equation for applying an add event. -/
theorem applyEventWith_add (flushImpl : IterInput → WriterState → WriterState)
    (interval : Nat) (s : WriterState) (e : QueryLogElement) :
    applyEventWith flushImpl interval s (.add e)
      = if s.queueItems.length < DBMS_QUERY_LOG_QUEUE_SIZE
        then { s with queueItems := s.queueItems ++ [e] } else s := rfl

/-- Helper: equation for applying an iteration event. -/
theorem applyEventWith_iter (flushImpl : IterInput → WriterState → WriterState)
    (interval : Nat) (s : WriterState) (inp : IterInput) :
    applyEventWith flushImpl interval s (.iter inp)
      = iterStepWith flushImpl interval s inp := rfl

/-- Helper: every iteration of the loop on a not-yet-stopped state has
one of four shapes: blocked in pop with nothing to do; caught exception;
no element obtained, deadline check only; head of the queue popped,
mutated, appended, then deadline check. -/
theorem iterStep_shape (flushImpl : IterInput → WriterState → WriterState)
    (interval : Nat) (s : WriterState) (inp : IterInput)
    (h : s.stopped = false) :
    iterStepWith flushImpl interval s inp = consumeFirst s inp
    ∨ iterStepWith flushImpl interval s inp
        = { consumeFirst s inp with
            data := []
            errorsLogged := (consumeFirst s inp).errorsLogged + 1 }
    ∨ iterStepWith flushImpl interval s inp
        = deadlineCheck flushImpl interval inp (consumeFirst s inp)
    ∨ ∃ e rest, (consumeFirst s inp).queueItems = e :: rest
        ∧ iterStepWith flushImpl interval s inp
            = deadlineCheck flushImpl interval inp
                { consumeFirst s inp with
                  queueItems := rest
                  data := (consumeFirst s inp).data ++ [assignedElement e]
                  appended := (consumeFirst s inp).appended ++ [assignedElement e] } := by
  have hstep : iterStepWith flushImpl interval s inp
      = match iterBodyWith flushImpl interval (consumeFirst s inp) inp with
        | .ok s2 => s2
        | .error _ =>
            { consumeFirst s inp with
              data := []
              errorsLogged := (consumeFirst s inp).errorsLogged + 1 } := by
    simp only [iterStepWith, h, Bool.false_eq_true, if_false]
  cases hb : inp.throwsBody with
  | true =>
      right; left
      rw [hstep]
      simp only [iterBodyWith, hb, if_true]
  | false =>
      have hbody : iterBodyWith flushImpl interval (consumeFirst s inp) inp
          = if (consumeFirst s inp).data.isEmpty then
              match (consumeFirst s inp).queueItems with
              | [] => .ok (consumeFirst s inp)
              | e :: rest =>
                  .ok (handleAndCheck flushImpl interval inp
                    { consumeFirst s inp with queueItems := rest } e)
            else
              if millisecondsElapsed (consumeFirst s inp).lastRestartNs inp.t1Ns
                    < interval ∧ inp.tryPopGets then
                match (consumeFirst s inp).queueItems with
                | [] => .ok (deadlineCheck flushImpl interval inp (consumeFirst s inp))
                | e :: rest =>
                    .ok (handleAndCheck flushImpl interval inp
                      { consumeFirst s inp with queueItems := rest } e)
              else .ok (deadlineCheck flushImpl interval inp (consumeFirst s inp)) := by
        simp only [iterBodyWith, hb, Bool.false_eq_true, if_false]
      by_cases hd : (consumeFirst s inp).data.isEmpty
      · cases hq : (consumeFirst s inp).queueItems with
        | nil =>
            left
            rw [hstep, hbody, if_pos hd, hq]
        | cons e rest =>
            right; right; right
            refine ⟨e, rest, rfl, ?_⟩
            rw [hstep, hbody, if_pos hd, hq]
            simp only [handleAndCheck_eq]
      · by_cases hcnd : millisecondsElapsed (consumeFirst s inp).lastRestartNs inp.t1Ns
            < interval ∧ inp.tryPopGets
        · cases hq : (consumeFirst s inp).queueItems with
          | nil =>
              right; right; left
              rw [hstep, hbody, if_neg hd, if_pos hcnd, hq]
          | cons e rest =>
              right; right; right
              refine ⟨e, rest, rfl, ?_⟩
              rw [hstep, hbody, if_neg hd, if_pos hcnd, hq]
              simp only [handleAndCheck_eq]
        · right; right; left
          rw [hstep, hbody, if_neg hd, if_neg hcnd]

/-- Helper: an iteration from an already-stopped state does nothing. -/
theorem iterStep_stopped_noop (flushImpl : IterInput → WriterState → WriterState)
    (interval : Nat) (s : WriterState) (inp : IterInput) (h : s.stopped = true) :
    iterStepWith flushImpl interval s inp = s := by
  simp only [iterStepWith, h, if_true]

/-- Helper: no event ever sets the stopped flag. -/
theorem applyEvent_not_stopped (flushImpl : IterInput → WriterState → WriterState)
    (hsh : FlushImplShape flushImpl) (interval : Nat) (s : WriterState)
    (ev : LogEvent) (h : s.stopped = false) :
    (applyEventWith flushImpl interval s ev).stopped = false := by
  cases ev with
  | add e =>
      rw [applyEventWith_add]
      split
      · exact h
      · exact h
  | iter inp =>
      rw [applyEventWith_iter]
      rcases iterStep_shape flushImpl interval s inp h
        with h1 | h1 | h1 | ⟨e, rest, hq, h1⟩ <;> rw [h1]
      · exact ((consumeFirst_fields s inp).2.2.1).trans h
      · exact ((consumeFirst_fields s inp).2.2.1).trans h
      · exact ((deadlineCheck_fields flushImpl hsh interval inp _).1).trans
          (((consumeFirst_fields s inp).2.2.1).trans h)
      · exact ((deadlineCheck_fields flushImpl hsh interval inp _).1).trans
          (((consumeFirst_fields s inp).2.2.1).trans h)

/-- Helper: the stopped flag stays false along any run. -/
theorem run_not_stopped (flushImpl : IterInput → WriterState → WriterState)
    (hsh : FlushImplShape flushImpl) (interval : Nat) (evs : List LogEvent) :
    ∀ s : WriterState, s.stopped = false →
      (evs.foldl (applyEventWith flushImpl interval) s).stopped = false := by
  induction evs with
  | nil => intro s h; exact h
  | cons ev rest ih =>
      intro s h
      exact ih _ (applyEvent_not_stopped flushImpl hsh interval s ev h)

/-- C3: refuted by the source. Since the condition at line 174 is an
assignment evaluating to 0 (false), the loop never executes the break, so
the Log Writer never reaches the Stopped state for any sequence of events;
the destructor's push of the sentinel merely gets the sentinel appended to
the accumulator, and saving_thread.join() in ~QueryLog never returns. -/
theorem shutdown_never_reaches_stopped :
    (∀ (interval startNs : Nat) (evs : List LogEvent),
        (runWriter interval startNs evs).stopped = false)
    ∧ (runWriter 100 0 destructorEvents).stopped = false
    ∧ (runWriter 100 0 destructorEvents).data = [shutdownSentinel]
    ∧ (runWriter 100 0 destructorEvents).queueItems = [] := by
  refine ⟨?_, by decide, by decide, by decide⟩
  intro interval startNs evs
  exact run_not_stopped flushImplSrc flushImplSrc_shape interval evs
    (initState startNs) rfl

/-- Helper: the source's deadline check never records an insert_rows
call (the write in flush is a TODO comment). -/
theorem deadlineCheck_insertCalls_src (interval : Nat) (inp : IterInput)
    (s : WriterState) :
    (deadlineCheck flushImplSrc interval inp s).insertCalls = s.insertCalls := by
  unfold deadlineCheck
  split
  · rfl
  · rfl

/-- Helper: no event of the source run records an insert_rows call. -/
theorem applyEvent_insertCalls_src (interval : Nat) (s : WriterState)
    (ev : LogEvent) :
    (applyEventWith flushImplSrc interval s ev).insertCalls = s.insertCalls := by
  cases ev with
  | add e =>
      rw [applyEventWith_add]
      split
      · rfl
      · rfl
  | iter inp =>
      cases hstop : s.stopped with
      | true =>
          rw [applyEventWith_iter,
            iterStep_stopped_noop flushImplSrc interval s inp hstop]
      | false =>
          rw [applyEventWith_iter]
          rcases iterStep_shape flushImplSrc interval s inp hstop
            with h1 | h1 | h1 | ⟨e, rest, hq, h1⟩ <;> rw [h1]
          · exact (consumeFirst_fields s inp).2.2.2.2.1
          · exact (consumeFirst_fields s inp).2.2.2.2.1
          · exact (deadlineCheck_insertCalls_src interval inp _).trans
              (consumeFirst_fields s inp).2.2.2.2.1
          · exact (deadlineCheck_insertCalls_src interval inp _).trans
              (consumeFirst_fields s inp).2.2.2.2.1

/-- Helper: along any source run the insert-call history stays empty. -/
theorem run_insertCalls_src (interval : Nat) (evs : List LogEvent) :
    ∀ s : WriterState, s.insertCalls = [] →
      (evs.foldl (applyEventWith flushImplSrc interval) s).insertCalls = [] := by
  induction evs with
  | nil => intro s h; exact h
  | cons ev rest ih =>
      intro s h
      exact ih _ ((applyEvent_insertCalls_src interval s ev).trans h)

/-- C2: refuted by the source. QueryLog::flush never performs the table
write (it is a TODO comment), so no Record submitted before shutdown is
ever passed to an insert_rows call: the insert-call history of every
source run is empty, and in the sample run the submitted QUERY_FINISH
Record is popped, accumulated and then discarded by the deadline flush
without reaching any insert_rows call. -/
theorem submitted_records_never_inserted :
    (∀ (interval startNs : Nat) (evs : List LogEvent),
        (runWriter interval startNs evs).insertCalls = [])
    ∧ (runWriter 100 0 demoEvents).flushCalls
        = [{ batch := [assignedElement exampleFinish],
             timeNs := 100000000, threw := false }]
    ∧ (runWriter 100 0 demoEvents).data = []
    ∧ (runWriter 100 0 demoEvents).queueItems = []
    ∧ (runWriter 100 0 demoEvents).insertCalls = [] := by
  refine ⟨?_, by decide, by decide, by decide, by decide⟩
  intro interval startNs evs
  exact run_insertCalls_src interval evs (initState startNs) rfl

/-- C5: an exception raised while popping or accumulating escapes the try
block and is caught at the loop boundary (QueryLog.h lines 191-196): the
iteration completes normally with the accumulator cleared and the error
logged, and the loop is not stopped; an exception inside flush is caught
by flush's own try/catch (lines 235-238), logged, and the accumulator is
still cleared. No failure propagates out of the writer: every iteration
is a total step. -/
theorem exceptions_contained_in_writer (interval : Nat) (s : WriterState)
    (inp : IterInput) (hs : s.stopped = false) (ht : inp.throwsBody = true) :
    iterStepWith flushImplSrc interval s inp
      = { consumeFirst s inp with
          data := []
          errorsLogged := (consumeFirst s inp).errorsLogged + 1 }
    ∧ (iterStepWith flushImplSrc interval s inp).stopped = false
    ∧ (∀ (tNs : Nat) (throws : Bool) (st : WriterState),
        (flushFn tNs throws st).data = []
        ∧ (flushFn tNs true st).errorsLogged = st.errorsLogged + 1
        ∧ (flushFn tNs false st).errorsLogged = st.errorsLogged) := by
  have h1 : iterStepWith flushImplSrc interval s inp
      = { consumeFirst s inp with
          data := []
          errorsLogged := (consumeFirst s inp).errorsLogged + 1 } := by
    simp only [iterStepWith, hs, Bool.false_eq_true, if_false,
      iterBodyWith, ht, if_true]
  refine ⟨h1, ?_, ?_⟩
  · rw [h1]
    exact ((consumeFirst_fields s inp).2.2.1).trans hs
  · intro tNs throws st
    exact ⟨rfl, rfl, rfl⟩

/-- Witness for exceptions_contained_in_writer: a concrete throwing
iteration from the initial state. -/
theorem exceptions_contained_in_writer_witness :
    (initState 5).stopped = false
    ∧ ({ t1Ns := 7, t2Ns := 9, tryPopGets := false, throwsBody := true,
         flushThrows := false, insertFails := false } : IterInput).throwsBody = true
    ∧ (iterStepWith flushImplSrc 100 (initState 5)
          { t1Ns := 7, t2Ns := 9, tryPopGets := false, throwsBody := true,
            flushThrows := false, insertFails := false }
        = { consumeFirst (initState 5)
              { t1Ns := 7, t2Ns := 9, tryPopGets := false, throwsBody := true,
                flushThrows := false, insertFails := false } with
            data := []
            errorsLogged :=
              (consumeFirst (initState 5)
                { t1Ns := 7, t2Ns := 9, tryPopGets := false, throwsBody := true,
                  flushThrows := false, insertFails := false }).errorsLogged + 1 }
        ∧ (iterStepWith flushImplSrc 100 (initState 5)
            { t1Ns := 7, t2Ns := 9, tryPopGets := false, throwsBody := true,
              flushThrows := false, insertFails := false }).stopped = false
        ∧ (∀ (tNs : Nat) (throws : Bool) (st : WriterState),
            (flushFn tNs throws st).data = []
            ∧ (flushFn tNs true st).errorsLogged = st.errorsLogged + 1
            ∧ (flushFn tNs false st).errorsLogged = st.errorsLogged)) :=
  ⟨rfl, rfl, exceptions_contained_in_writer 100 (initState 5) _ rfl rfl⟩

/-- Helper: passing the deadline guard means at least
interval * 1000000 nanoseconds passed since the Stopwatch restart. -/
theorem flush_guard_spacing (interval last t2 : Nat) (hpos : 0 < interval)
    (h : interval ≤ millisecondsElapsed last t2) :
    last + interval * 1000000 ≤ t2 := by
  unfold millisecondsElapsed at h
  have h2 : interval * 1000000 ≤ t2 - last :=
    (Nat.le_div_iff_mul_le (by norm_num)).mp h
  have h3 : 0 < interval * 1000000 := by positivity
  omega

/-- Helper: a deadline check whose guard fails changes nothing. -/
theorem deadlineCheck_noflush (flushImpl : IterInput → WriterState → WriterState)
    (interval : Nat) (inp : IterInput) (s : WriterState)
    (hg : ¬ interval ≤ millisecondsElapsed s.lastRestartNs inp.t2Ns) :
    deadlineCheck flushImpl interval inp s = s := by
  unfold deadlineCheck
  rw [if_neg hg]

/-- Helper: after consumeFirst the first flag is always down. -/
theorem consumeFirst_first_false (s : WriterState) (inp : IterInput) :
    (consumeFirst s inp).first = false := by
  unfold consumeFirst
  split
  case isTrue h => rfl
  case isFalse h => simpa using h

/-- Helper: consumeFirst preserves the timing invariant. -/
theorem consumeFirst_timing (interval : Nat) (s : WriterState) (inp : IterInput)
    (hinv : writerTimingInv interval s) :
    writerTimingInv interval (consumeFirst s inp) := by
  obtain ⟨hsp, hlast, hfi⟩ := hinv
  unfold consumeFirst
  split
  case isTrue hf =>
      have hempty : s.flushCalls = [] := hfi hf
      refine ⟨?_, ?_, ?_⟩
      · show flushTimesSpaced interval s.flushCalls
        exact hsp
      · intro f hf2
        have hf3 : s.flushCalls.getLast? = some f := hf2
        rw [hempty] at hf3
        exact absurd hf3 (by simp)
      · intro _
        exact hempty
  case isFalse => exact ⟨hsp, hlast, hfi⟩

/-- Helper: the deadline check preserves the timing invariant, for any
state whose first flag is already down. -/
theorem deadlineCheck_timing_of (flushImpl : IterInput → WriterState → WriterState)
    (hsh : FlushImplShape flushImpl) (interval : Nat) (hpos : 0 < interval)
    (inp : IterInput) (x : WriterState)
    (hsp : flushTimesSpaced interval x.flushCalls)
    (hlast : ∀ f, x.flushCalls.getLast? = some f → f.timeNs = x.lastRestartNs)
    (hfirst : x.first = false) :
    writerTimingInv interval (deadlineCheck flushImpl interval inp x) := by
  unfold deadlineCheck
  split
  case isTrue hg =>
      obtain ⟨_, hfi, _, _, _, _, c, hct, hcalls⟩ := hsh inp x
      refine ⟨?_, ?_, ?_⟩
      · show flushTimesSpaced interval (flushImpl inp x).flushCalls
        rw [hcalls]
        unfold flushTimesSpaced at hsp ⊢
        rw [List.chain'_append]
        refine ⟨hsp, List.chain'_singleton _, ?_⟩
        intro a ha b hb
        have ha2 : a.timeNs = x.lastRestartNs := hlast a ha
        have hb2 : c = b := by simpa using hb
        rw [ha2, ← hb2, hct]
        exact flush_guard_spacing interval x.lastRestartNs inp.t2Ns hpos hg
      · intro f hf
        have hf2 : (flushImpl inp x).flushCalls.getLast? = some f := hf
        rw [hcalls, List.getLast?_concat] at hf2
        have hfc : f = c := by
          simpa using hf2.symm
        rw [hfc, hct]
      · intro hf
        have hff : (flushImpl inp x).first = false := hfi.trans hfirst
        exact absurd (hff.symm.trans hf) (by simp)
  case isFalse =>
      refine ⟨hsp, hlast, ?_⟩
      intro hf
      exact absurd (hfirst.symm.trans hf) (by simp)

/-- Helper: every event preserves the timing invariant. -/
theorem applyEvent_timing (flushImpl : IterInput → WriterState → WriterState)
    (hsh : FlushImplShape flushImpl) (interval : Nat) (hpos : 0 < interval)
    (s : WriterState) (ev : LogEvent) (hinv : writerTimingInv interval s) :
    writerTimingInv interval (applyEventWith flushImpl interval s ev) := by
  cases ev with
  | add e =>
      rw [applyEventWith_add]
      split
      · exact hinv
      · exact hinv
  | iter inp =>
      rw [applyEventWith_iter]
      cases hstop : s.stopped with
      | true =>
          rw [iterStep_stopped_noop flushImpl interval s inp hstop]
          exact hinv
      | false =>
          have hc : writerTimingInv interval (consumeFirst s inp) :=
            consumeFirst_timing interval s inp hinv
          have hcf : (consumeFirst s inp).first = false :=
            consumeFirst_first_false s inp
          rcases iterStep_shape flushImpl interval s inp hstop
            with h1 | h1 | h1 | ⟨e, rest, hq, h1⟩ <;> rw [h1]
          · exact hc
          · exact ⟨hc.1, hc.2.1, fun hf => absurd (hcf.symm.trans hf) (by simp)⟩
          · exact deadlineCheck_timing_of flushImpl hsh interval hpos inp _
              hc.1 hc.2.1 hcf
          · exact deadlineCheck_timing_of flushImpl hsh interval hpos inp _
              hc.1 hc.2.1 hcf

/-- Helper: the timing invariant holds along any run. -/
theorem run_timing (flushImpl : IterInput → WriterState → WriterState)
    (hsh : FlushImplShape flushImpl) (interval : Nat) (hpos : 0 < interval)
    (evs : List LogEvent) :
    ∀ s : WriterState, writerTimingInv interval s →
      writerTimingInv interval (evs.foldl (applyEventWith flushImpl interval) s) := by
  induction evs with
  | nil => intro s h; exact h
  | cons ev rest ih =>
      intro s h
      exact ih _ (applyEvent_timing flushImpl hsh interval hpos s ev h)

/-- Helper: the tryPop wait budget equals
max(0, flush_interval_ms - elapsed_ms). -/
theorem tryPopBudget_eq_max (interval m : Nat) :
    (tryPopBudget interval m : ℤ) = max 0 ((interval : ℤ) - (m : ℤ)) := by
  unfold tryPopBudget
  by_cases h : m < interval
  · rw [if_pos h, Nat.cast_sub h.le, max_eq_right (by omega)]
  · rw [if_neg h, max_eq_left (by omega)]
    simp

/-- Helper: an iteration records a flush only when the elapsed time since
the Stopwatch restart has reached the interval. -/
theorem step_flush_only_at_deadline (interval : Nat) (s : WriterState)
    (inp : IterInput) (hs : s.stopped = false)
    (hne : (iterStepWith flushImplSrc interval s inp).flushCalls ≠ s.flushCalls) :
    interval ≤ millisecondsElapsed (consumeFirst s inp).lastRestartNs inp.t2Ns := by
  rcases iterStep_shape flushImplSrc interval s inp hs
    with h1 | h1 | h1 | ⟨e, rest, hq, h1⟩
  · exact absurd (by
      rw [h1]
      exact (consumeFirst_fields s inp).2.2.2.2.2.1) hne
  · exact absurd (by
      rw [h1]
      exact (consumeFirst_fields s inp).2.2.2.2.2.1) hne
  · by_cases hg : interval ≤ millisecondsElapsed
        (consumeFirst s inp).lastRestartNs inp.t2Ns
    · exact hg
    · exact absurd
        ((congrArg WriterState.flushCalls h1).trans
          ((congrArg WriterState.flushCalls
              (deadlineCheck_noflush flushImplSrc interval inp _ hg)).trans
            (consumeFirst_fields s inp).2.2.2.2.2.1)) hne
  · by_cases hg : interval ≤ millisecondsElapsed
        (consumeFirst s inp).lastRestartNs inp.t2Ns
    · exact hg
    · exact absurd
        ((congrArg WriterState.flushCalls h1).trans
          ((congrArg WriterState.flushCalls
              (deadlineCheck_noflush flushImplSrc interval inp
                { consumeFirst s inp with
                  queueItems := rest
                  data := (consumeFirst s inp).data ++ [assignedElement e]
                  appended := (consumeFirst s inp).appended
                    ++ [assignedElement e] } hg)).trans
            (consumeFirst_fields s inp).2.2.2.2.2.1)) hne

/-- C4: the flush deadline is a rolling window. The wait imposed on the
next pop equals max(0, flush_interval_ms - elapsed_ms); along any source
run the recorded flush calls are spaced at least
flush_interval_ms apart (there is no shutdown flush in any source run,
the break being unreachable); and an iteration records a flush only once
the time elapsed since the last Stopwatch restart reaches the interval. -/
theorem flush_window_rolling (interval elapsedMs startNs : Nat)
    (evs : List LogEvent) (s : WriterState) (inp : IterInput)
    (hpos : 0 < interval) :
    (tryPopBudget interval elapsedMs : ℤ)
        = max 0 ((interval : ℤ) - (elapsedMs : ℤ))
    ∧ flushTimesSpaced interval (runWriter interval startNs evs).flushCalls
    ∧ (s.stopped = false →
        (iterStepWith flushImplSrc interval s inp).flushCalls ≠ s.flushCalls →
        interval ≤ millisecondsElapsed (consumeFirst s inp).lastRestartNs inp.t2Ns) := by
  refine ⟨tryPopBudget_eq_max interval elapsedMs, ?_, ?_⟩
  · have hinit : writerTimingInv interval (initState startNs) := by
      refine ⟨?_, ?_, fun _ => rfl⟩
      · exact List.chain'_nil
      · intro f hf
        exact absurd hf (by simp [initState])
    exact (run_timing flushImplSrc flushImplSrc_shape interval hpos evs
      (initState startNs) hinit).1
  · intro hs hne
    exact step_flush_only_at_deadline interval s inp hs hne

/-- Witness for flush_window_rolling: interval 100 ms, a run with two
deadline flushes 100 ms apart, and an iteration that flushes a popped
record 150 ms after thread start. -/
theorem flush_window_rolling_witness :
    0 < 100
    ∧ ((tryPopBudget 100 30 : ℤ) = max 0 ((100 : ℤ) - (30 : ℤ))
       ∧ flushTimesSpaced 100 (runWriter 100 0 demoEventsTwoFlushes).flushCalls
       ∧ (({ initState 0 with queueItems := [exampleFinish] }
              : WriterState).stopped = false →
           (iterStepWith flushImplSrc 100
               { initState 0 with queueItems := [exampleFinish] }
               { t1Ns := 0, t2Ns := 150000000, tryPopGets := false,
                 throwsBody := false, flushThrows := false,
                 insertFails := false }).flushCalls
             ≠ ({ initState 0 with queueItems := [exampleFinish] }
                  : WriterState).flushCalls →
           100 ≤ millisecondsElapsed
             (consumeFirst { initState 0 with queueItems := [exampleFinish] }
               { t1Ns := 0, t2Ns := 150000000, tryPopGets := false,
                 throwsBody := false, flushThrows := false,
                 insertFails := false }).lastRestartNs 150000000))
    ∧ 100 ≤ millisecondsElapsed
        (consumeFirst { initState 0 with queueItems := [exampleFinish] }
          { t1Ns := 0, t2Ns := 150000000, tryPopGets := false,
            throwsBody := false, flushThrows := false,
            insertFails := false }).lastRestartNs 150000000 :=
  ⟨by decide,
   flush_window_rolling 100 30 0 demoEventsTwoFlushes
     { initState 0 with queueItems := [exampleFinish] }
     { t1Ns := 0, t2Ns := 150000000, tryPopGets := false,
       throwsBody := false, flushThrows := false, insertFails := false }
     (by decide),
   (flush_window_rolling 100 30 0 demoEventsTwoFlushes
     { initState 0 with queueItems := [exampleFinish] }
     { t1Ns := 0, t2Ns := 150000000, tryPopGets := false,
       throwsBody := false, flushThrows := false, insertFails := false }
     (by decide)).2.2 rfl (by decide)⟩

/-- Helper: the deadline check of the spec-modelled run preserves the
conservation invariant. -/
theorem deadlineCheck_inserted (interval : Nat) (inp : IterInput)
    (x : WriterState) (hinv : insertedInv x) :
    insertedInv (deadlineCheck flushImplModelled interval inp x) := by
  unfold deadlineCheck
  split
  case isTrue hg =>
      show ((((flushImplModelled inp x).insertCalls.map InsertCall.batch).flatten
          ++ (flushImplModelled inp x).data)).Sublist (flushImplModelled inp x).appended
      unfold insertedInv at hinv
      show (((x.insertCalls
          ++ [(⟨x.data, !inp.insertFails⟩ : InsertCall)]).map InsertCall.batch).flatten
          ++ []).Sublist x.appended
      simp only [List.map_append, List.map_cons, List.map_nil,
        List.flatten_append, List.flatten_cons, List.flatten_nil,
        List.append_nil, List.append_assoc]
      exact hinv
  case isFalse => exact hinv

/-- Helper: every event of the spec-modelled run preserves the
conservation invariant. -/
theorem applyEvent_inserted (interval : Nat) (s : WriterState) (ev : LogEvent)
    (hinv : insertedInv s) :
    insertedInv (applyEventWith flushImplModelled interval s ev) := by
  cases ev with
  | add e =>
      rw [applyEventWith_add]
      split
      · exact hinv
      · exact hinv
  | iter inp =>
      rw [applyEventWith_iter]
      cases hstop : s.stopped with
      | true =>
          rw [iterStep_stopped_noop flushImplModelled interval s inp hstop]
          exact hinv
      | false =>
          have hc : insertedInv (consumeFirst s inp) := by
            unfold consumeFirst
            split
            · exact hinv
            · exact hinv
          rcases iterStep_shape flushImplModelled interval s inp hstop
            with h1 | h1 | h1 | ⟨e, rest, hq, h1⟩ <;> rw [h1]
          · exact hc
          · show ((((consumeFirst s inp).insertCalls.map InsertCall.batch).flatten
                ++ [])).Sublist (consumeFirst s inp).appended
            unfold insertedInv at hc
            rw [List.append_nil]
            exact (List.sublist_append_left _ _).trans hc
          · exact deadlineCheck_inserted interval inp _ hc
          · apply deadlineCheck_inserted
            show ((((consumeFirst s inp).insertCalls.map InsertCall.batch).flatten
                ++ ((consumeFirst s inp).data ++ [assignedElement e]))).Sublist
              ((consumeFirst s inp).appended ++ [assignedElement e])
            unfold insertedInv at hc
            have h2 := hc.append (List.Sublist.refl [assignedElement e])
            simpa [List.append_assoc] using h2

/-- Helper: the conservation invariant holds along any spec-modelled run. -/
theorem run_inserted (interval startNs : Nat) (evs : List LogEvent) :
    insertedInv (runWriterModelled interval startNs evs) := by
  have hall : ∀ s : WriterState, insertedInv s →
      insertedInv (evs.foldl (applyEventWith flushImplModelled interval) s) := by
    induction evs with
    | nil => intro s h; exact h
    | cons ev rest ih =>
        intro s h
        exact ih _ (applyEvent_inserted interval s ev h)
  refine hall (initState startNs) ?_
  show (([] : List (List QueryLogElement)).flatten
      ++ ([] : List QueryLogElement)).Sublist []
  simp

/-- Helper: when the elements ever accumulated are pairwise distinct,
distinct insert_rows calls of the spec-modelled run have disjoint
batches. -/
theorem modelled_batches_disjoint (interval startNs : Nat) (evs : List LogEvent)
    (hnd : (runWriterModelled interval startNs evs).appended.Nodup)
    (i j : Nat) (hij : i < j)
    (hj : j < (runWriterModelled interval startNs evs).insertCalls.length) :
    List.Disjoint
      (((runWriterModelled interval startNs evs).insertCalls.get
          ⟨i, lt_trans hij hj⟩).batch)
      (((runWriterModelled interval startNs evs).insertCalls.get ⟨j, hj⟩).batch) := by
  have hinv := run_inserted interval startNs evs
  unfold insertedInv at hinv
  have hnd2 : ((runWriterModelled interval startNs evs).insertCalls.map
      InsertCall.batch).flatten.Nodup :=
    ((List.sublist_append_left _ _).trans hinv).nodup hnd
  have hpw : ((runWriterModelled interval startNs evs).insertCalls.map
      InsertCall.batch).Pairwise List.Disjoint :=
    (List.nodup_flatten.mp hnd2).2
  have hget := List.pairwise_iff_get.mp hpw
    ⟨i, by simpa using lt_trans hij hj⟩ ⟨j, by simpa using hj⟩ hij
  simpa using hget

/-- C6: in the spec-modelled run (the table write of flush is a TODO in
the source and is modelled from spec §4.3/§4.4), a batch whose
insert_rows call failed is discarded, not retried: provided the
accumulated elements are pairwise distinct, none of the batch's Records
appears in any later insert_rows call. -/
theorem failed_batch_never_retried (interval startNs : Nat)
    (evs : List LogEvent)
    (hnd : (runWriterModelled interval startNs evs).appended.Nodup)
    (i j : Nat) (hij : i < j)
    (hj : j < (runWriterModelled interval startNs evs).insertCalls.length)
    (hfail : ((runWriterModelled interval startNs evs).insertCalls.get
        ⟨i, lt_trans hij hj⟩).ok = false)
    (e : QueryLogElement)
    (he : e ∈ ((runWriterModelled interval startNs evs).insertCalls.get
        ⟨i, lt_trans hij hj⟩).batch) :
    e ∉ ((runWriterModelled interval startNs evs).insertCalls.get ⟨j, hj⟩).batch :=
  modelled_batches_disjoint interval startNs evs hnd i j hij hj he

/-- Witness for failed_batch_never_retried: in the two-flush sample run
the first insert_rows call fails on the batch holding the first record,
and that record is not in the second call's batch. -/
theorem failed_batch_never_retried_witness :
    (runWriterModelled 100 0 demoEventsTwoFlushes).appended.Nodup
    ∧ 0 < 1
    ∧ 1 < (runWriterModelled 100 0 demoEventsTwoFlushes).insertCalls.length
    ∧ ((runWriterModelled 100 0 demoEventsTwoFlushes).insertCalls.get
        ⟨0, by decide⟩).ok = false
    ∧ assignedElement exampleFinish
        ∈ ((runWriterModelled 100 0 demoEventsTwoFlushes).insertCalls.get
            ⟨0, by decide⟩).batch
    ∧ assignedElement exampleFinish
        ∉ ((runWriterModelled 100 0 demoEventsTwoFlushes).insertCalls.get
            ⟨1, by decide⟩).batch :=
  ⟨by decide, by decide, by decide, by decide, by decide,
   failed_batch_never_retried 100 0 demoEventsTwoFlushes (by decide) 0 1
     (by decide) (by decide) (by decide) (assignedElement exampleFinish)
     (by decide)⟩

/-- C9: QueryLog::flush leaves the accumulator empty on return, whether
or not its try block raised: data.clear() runs unconditionally after the
try/catch. -/
theorem flush_always_clears_data (tNs : Nat) (throws : Bool) (s : WriterState) :
    (flushFn tNs throws s).data = [] := rfl

/-- C10: QueryLog::createBlock returns a block of exactly three columns,
named type, event_time and query_start_time, independently of the
accumulated records; the three names are among the fourteen field names of
QueryLogElement, so only three of the Record's fields are represented. -/
theorem createBlock_constant_three_columns (d d2 : List QueryLogElement) :
    createBlock d = createBlock d2
    ∧ (createBlock d).length = 3
    ∧ (createBlock d).map ColumnWithTypeAndName.name
        = ["type", "event_time", "query_start_time"]
    ∧ ∀ c ∈ createBlock d, c.name ∈ queryLogElementFieldNames := by
  refine ⟨rfl, rfl, rfl, ?_⟩
  intro c hc
  simp only [createBlock, List.mem_cons, List.not_mem_nil, or_false] at hc
  rcases hc with h | h | h <;> subst h <;> decide

end QueryLogSpec

namespace QueryLogSpec

/-- Helper: equation of a push step. -/
theorem queueStep_push_eq (st : QueueState) (e : QueryLogElement) :
    queueStep st (.push e)
      = if st.items.length < st.capacity
        then { st with items := st.items ++ [e], pushed := st.pushed ++ [e] }
        else st := rfl

/-- Helper: equation of a pop step. -/
theorem queueStep_pop_eq (st : QueueState) :
    queueStep st .pop
      = match st.items with
        | [] => st
        | a :: rest => { st with items := rest, popped := st.popped ++ [a] } := rfl

/-- Helper: one queue operation preserves the FIFO accounting
pushed = popped ++ items. -/
theorem queueStep_inv (st : QueueState) (op : QueueOp)
    (h : st.pushed = st.popped ++ st.items) :
    (queueStep st op).pushed
      = (queueStep st op).popped ++ (queueStep st op).items := by
  cases op with
  | push e =>
      rw [queueStep_push_eq]
      by_cases hc : st.items.length < st.capacity
      · rw [if_pos hc]
        show st.pushed ++ [e] = st.popped ++ (st.items ++ [e])
        rw [h, List.append_assoc]
      · rw [if_neg hc]
        exact h
  | pop =>
      rw [queueStep_pop_eq]
      rcases hi : st.items with _ | ⟨a, rest⟩
      · exact h
      · show st.pushed = (st.popped ++ [a]) ++ rest
        rw [h, hi]
        simp [List.append_assoc]

/-- C7: the queue member of QueryLog is constructed with fixed capacity
DBMS_QUERY_LOG_QUEUE_SIZE = 1024; a completed push (QueryLog::add does
nothing but push) appends exactly the submitted record, dropping and
failing nothing, and a push facing a full queue only blocks (no step);
and along any operation sequence the completed pops, in order, followed
by the remaining queue content, are exactly the completed pushes in
submission order (FIFO). The queue itself is modelled from spec §4.1,
its header not being part of the fragment. -/
theorem bounded_queue_capacity_and_fifo (ops : List QueueOp) (st : QueueState)
    (e : QueryLogElement) (hroom : st.items.length < st.capacity) :
    initQueue.capacity = 1024
    ∧ initQueue.capacity = DBMS_QUERY_LOG_QUEUE_SIZE
    ∧ (queryLogAdd st e).items = st.items ++ [e]
    ∧ (queryLogAdd st e).pushed = st.pushed ++ [e]
    ∧ (runQueue ops).pushed = (runQueue ops).popped ++ (runQueue ops).items := by
  refine ⟨rfl, rfl, ?_, ?_, ?_⟩
  · unfold queryLogAdd
    rw [queueStep_push_eq, if_pos hroom]
  · unfold queryLogAdd
    rw [queueStep_push_eq, if_pos hroom]
  · have hall : ∀ q : QueueState, q.pushed = q.popped ++ q.items →
        (ops.foldl queueStep q).pushed
          = (ops.foldl queueStep q).popped ++ (ops.foldl queueStep q).items := by
      induction ops with
      | nil => intro q h; exact h
      | cons op rest ih =>
          intro q h
          exact ih _ (queueStep_inv q op h)
    exact hall initQueue rfl

/-- Witness for bounded_queue_capacity_and_fifo: a queue with room for
one more element, and a run of two pushes and one pop. -/
theorem bounded_queue_capacity_and_fifo_witness :
    ({ capacity := 3, items := [exampleFinish], pushed := [exampleFinish],
       popped := [] } : QueueState).items.length
      < ({ capacity := 3, items := [exampleFinish], pushed := [exampleFinish],
           popped := [] } : QueueState).capacity
    ∧ (initQueue.capacity = 1024
       ∧ initQueue.capacity = DBMS_QUERY_LOG_QUEUE_SIZE
       ∧ (queryLogAdd
            { capacity := 3, items := [exampleFinish],
              pushed := [exampleFinish], popped := [] } exampleFinish2).items
          = [exampleFinish] ++ [exampleFinish2]
       ∧ (queryLogAdd
            { capacity := 3, items := [exampleFinish],
              pushed := [exampleFinish], popped := [] } exampleFinish2).pushed
          = [exampleFinish] ++ [exampleFinish2]
       ∧ (runQueue [.push exampleFinish, .push exampleFinish2, .pop]).pushed
          = (runQueue [.push exampleFinish, .push exampleFinish2, .pop]).popped
            ++ (runQueue [.push exampleFinish, .push exampleFinish2, .pop]).items) :=
  ⟨by decide,
   bounded_queue_capacity_and_fifo [.push exampleFinish, .push exampleFinish2, .pop]
     { capacity := 3, items := [exampleFinish], pushed := [exampleFinish],
       popped := [] } exampleFinish2 (by decide)⟩

end QueryLogSpec

namespace H3Spec

/-- Helper: when every resolution is within range, executeImpl returns
the mapped results. -/
theorem executeImpl_ok {α : Type} (hexAreaM2 : Nat → α) (rs : List Nat)
    (h : ∀ r ∈ rs, r ≤ MAX_H3_RES) :
    executeImpl hexAreaM2 rs = .ok (rs.map hexAreaM2) := by
  induction rs with
  | nil => rfl
  | cons r rest ih =>
      have hr : r ≤ MAX_H3_RES := h r (by simp)
      have hrest : executeImpl hexAreaM2 rest = .ok (rest.map hexAreaM2) :=
        ih (fun a ha => h a (by simp [ha]))
      unfold executeImpl
      rw [if_neg (by omega), hrest]
      rfl

/-- Helper: when some resolution is out of range, executeImpl throws
ARGUMENT_OUT_OF_BOUND for an out-of-range resolution. -/
theorem executeImpl_err {α : Type} (hexAreaM2 : Nat → α) (rs : List Nat)
    (h : ∃ r ∈ rs, MAX_H3_RES < r) :
    ∃ r, MAX_H3_RES < r
      ∧ executeImpl hexAreaM2 rs = .error (.ARGUMENT_OUT_OF_BOUND r) := by
  induction rs with
  | nil => simp at h
  | cons r rest ih =>
      by_cases hr : MAX_H3_RES < r
      · refine ⟨r, hr, ?_⟩
        unfold executeImpl
        rw [if_pos hr]
      · have hrest : ∃ a ∈ rest, MAX_H3_RES < a := by
          rcases h with ⟨a, ha, ha2⟩
          rcases List.mem_cons.mp ha with he | he
          · exact absurd (he ▸ ha2) hr
          · exact ⟨a, he, ha2⟩
        rcases ih hrest with ⟨a, ha, ha2⟩
        refine ⟨a, ha, ?_⟩
        unfold executeImpl
        rw [if_neg hr, ha2]

/-- C8: FunctionH3HexAreaM2::executeImpl validates its input range per
row: the call succeeds exactly when every row's resolution is at most
MAX_H3_RES, in which case each row's result is hexAreaM2 of its
resolution; otherwise an ARGUMENT_OUT_OF_BOUND error carrying an
out-of-range resolution is thrown. -/
theorem h3HexAreaM2_range_validation {α : Type} (hexAreaM2 : Nat → α)
    (resolutions : List Nat) :
    ((∃ vs, executeImpl hexAreaM2 resolutions = .ok vs)
       ↔ ∀ r ∈ resolutions, r ≤ MAX_H3_RES)
    ∧ ((∀ r ∈ resolutions, r ≤ MAX_H3_RES) →
        executeImpl hexAreaM2 resolutions = .ok (resolutions.map hexAreaM2))
    ∧ ((∃ r ∈ resolutions, MAX_H3_RES < r) →
        ∃ r, MAX_H3_RES < r
          ∧ executeImpl hexAreaM2 resolutions
              = .error (.ARGUMENT_OUT_OF_BOUND r)) := by
  refine ⟨⟨?_, ?_⟩, executeImpl_ok hexAreaM2 resolutions,
    executeImpl_err hexAreaM2 resolutions⟩
  · rintro ⟨vs, hvs⟩ r hr
    by_contra hgt
    rcases executeImpl_err hexAreaM2 resolutions ⟨r, hr, by omega⟩
      with ⟨a, _, ha2⟩
    rw [hvs] at ha2
    exact Except.noConfusion ha2
  · intro h
    exact ⟨resolutions.map hexAreaM2, executeImpl_ok hexAreaM2 resolutions h⟩

/-- Witness for h3HexAreaM2_range_validation: resolutions 0 and 15 are in
range and mapped; resolution 16 is rejected with ARGUMENT_OUT_OF_BOUND. -/
theorem h3HexAreaM2_range_validation_witness :
    executeImpl (fun n => n * 2) [0, 15] = .ok [0, 30]
    ∧ (∃ r, MAX_H3_RES < r
        ∧ executeImpl (fun n => n * 2) [3, 16]
            = .error (.ARGUMENT_OUT_OF_BOUND r)) :=
  ⟨(h3HexAreaM2_range_validation (fun n => n * 2) [0, 15]).2.1 (by decide),
   (h3HexAreaM2_range_validation (fun n => n * 2) [3, 16]).2.2
     ⟨16, by decide, by decide⟩⟩

end H3Spec
